import Mathlib

-- Verification of the Autostart Manager core (AutoLoad.py): a shallow embedding
-- of the batch list store, the batch process lifecycle manager, the autostart
-- registrar and settings portability, with theorems about the spec claims.
-- External effects (filesystem existence, process launch, command execution)
-- enter as explicit oracle parameters; Python dicts are association lists in
-- insertion order.

set_option autoImplicit false

namespace AutoLoad

/-- Result of running an external command with output capture, as produced by
subprocess.run with capture output: exit code and the two captured streams. -/
structure CmdResult where
  returncode : Int
  stdout : String
  stderr : String
  deriving DecidableEq

/-- One character of the allowed autostart-name alphabet, the character class
of the validation pattern in validate_app_name (AutoLoad.py line 575). -/
def isNameChar (c : Char) : Bool :=
  (decide ('a' ≤ c) && decide (c ≤ 'z')) || (decide ('A' ≤ c) && decide (c ≤ 'Z'))
    || (decide ('0' ≤ c) && decide (c ≤ '9')) || c == '_' || c == '-'

/-- Python re.match of the anchored name pattern against s (validate_app_name,
AutoLoad.py line 575). The dollar anchor of Python regular expressions also
matches just before a single trailing newline, so a name made of allowed
characters followed by one final newline matches as well. -/
def pyNameMatch (s : String) : Bool :=
  (!s.data.isEmpty && s.data.all isNameChar)
    || (s.data.getLast? == some '\n' && !s.data.dropLast.isEmpty
          && s.data.dropLast.all isNameChar)

/-- AutostartManager.validate_app_name (AutoLoad.py lines 572-577): validity flag
plus the error text shown when the name is rejected. -/
def validate_app_name (app_name : String) : Bool × String :=
  if app_name == "" then (false, "Application name cannot be empty")
  else if !(pyNameMatch app_name) then
    (false, "Application name can only contain letters, numbers, underscores, or hyphens")
  else (true, "")

/-- One of the four shell metacharacters rejected by the file check
(DragDropLineEdit.is_valid_file, AutoLoad.py line 59). -/
def isShellMeta (c : Char) : Bool :=
  c == '<' || c == '>' || c == '|' || c == '&'

/-- The extension test of is_valid_file (AutoLoad.py line 58): the lowercased
path ends in one of the three approved executable extensions. -/
def hasApprovedExt (file_path : String) : Bool :=
  let low := file_path.data.map Char.toLower
  (".exe".data.isSuffixOf low) || (".bat".data.isSuffixOf low)
    || (".cmd".data.isSuffixOf low)

/-- DragDropLineEdit.is_valid_file (AutoLoad.py lines 56-59): the file exists
(existence oracle fs), its lowercased path ends in an approved executable
extension, and it contains none of the four shell metacharacters. -/
def is_valid_file (fs : String → Bool) (file_path : String) : Bool :=
  fs file_path && hasApprovedExt file_path && !(file_path.data.any isShellMeta)

/-- Windows basename of a path as os.path.basename computes it: the component
after the last forward slash or backslash (start_all_batch, line 882). -/
def basename (p : String) : String :=
  String.mk (p.data.reverse.takeWhile (fun c => !(c == '/' || c == '\\'))).reverse

/-- Assignment m[k] = v on a Python dict modelled as an association list in
insertion order: updating an existing key keeps its position, a new key is
appended at the end. -/
def dictInsert (m : List (String × String)) (k v : String) : List (String × String) :=
  if m.any (fun kv => kv.1 == k) then
    m.map (fun kv => if kv.1 == k then (k, v) else kv)
  else m ++ [(k, v)]

/-- Deletion del m[k] on a Python dict modelled as an association list: removes
the binding of k (the first one, and dict keys are unique). -/
def dictErase (m : List (String × String)) (k : String) : List (String × String) :=
  m.eraseP (fun kv => kv.1 == k)

/-- The mutable session state of the batch tab of AutostartManager: the table
rows as (path, status text) in display order, the persisted batch_list.json
content (none when the file is absent, error when its content is malformed
JSON, ok with the stored array of paths otherwise), the tracked process dict
of the lifecycle manager, and the current theme string. -/
structure BatchState where
  batchTable : List (String × String)
  batchFile : Option (Except Unit (List String))
  processes : List (String × String)
  theme : String

/-- AutostartManager.save_batch_list (AutoLoad.py lines 849-857): serializes the
first column of the table, in order, into the persisted batch list file. -/
def save_batch_list (st : BatchState) : BatchState :=
  { st with batchFile := some (Except.ok (st.batchTable.map Prod.fst)) }

/-- AutostartManager.load_batch_list (AutoLoad.py lines 859-875): an absent file
does nothing; a malformed file raises inside the handler before the table is
touched, leaving it as it was; otherwise the table is rebuilt from exactly the
stored entries passing is_valid_file, each shown Running when its path is a key
of the tracked process dict and Stopped otherwise. -/
def load_batch_list (fs : String → Bool) (st : BatchState) : BatchState :=
  match st.batchFile with
  | none => st
  | some (Except.error _) => st
  | some (Except.ok items) =>
    let rows := (items.filter (fun p => is_valid_file fs p)).map
      (fun p => (p, if st.processes.any (fun kv => kv.1 == p) then "Running" else "Stopped"))
    { st with batchTable := rows }

/-- AutostartManager.add_batch_file (AutoLoad.py lines 810-825): a chosen path is
appended (status Stopped) and the list saved only when it is nonempty, passes
is_valid_file and is not already present; otherwise nothing changes. -/
def add_batch_file (fs : String → Bool) (st : BatchState) (file_path : String) : BatchState :=
  if !(file_path == "") && is_valid_file fs file_path then
    if st.batchTable.any (fun r => r.1 == file_path) then st
    else save_batch_list { st with batchTable := st.batchTable ++ [(file_path, "Stopped")] }
  else st

/-- Per-entry outcome reported by start_all_batch: the Running notice on a
successful launch, or the caught launch exception shown as an error dialog. -/
inductive LaunchReport where
  | running
  | launchFailed
  deriving DecidableEq

/-- AutostartManager.start_all_batch (AutoLoad.py lines 877-892): clears the
tracked dict, then for each table row in order attempts the launch (the
subprocess.Popen call, modelled by the oracle launchOk); on success the path is
recorded in the dict and the row shows Running, on a raised launch error the
row shows Stopped and an error is reported, and the loop continues with the
remaining rows either way. -/
def start_all_batch (launchOk : String → Bool) (st : BatchState) :
    BatchState × List (String × LaunchReport) :=
  let step := fun (acc : List (String × String) × List (String × String)
        × List (String × LaunchReport)) (row : String × String) =>
    if launchOk row.1 then
      (dictInsert acc.1 row.1 (basename row.1),
        acc.2.1 ++ [(row.1, "Running")],
        acc.2.2 ++ [(row.1, LaunchReport.running)])
    else
      (acc.1, acc.2.1 ++ [(row.1, "Stopped")],
        acc.2.2 ++ [(row.1, LaunchReport.launchFailed)])
  let r := st.batchTable.foldl step ([], [], [])
  ({ st with processes := r.1, batchTable := r.2.1 }, r.2.2)

/-- Outcome of the taskkill command stop_all_batch issues for one tracked
process: zero exit, nonzero exit with the captured stderr, or a raised
exception. -/
inductive TermOutcome where
  | ok
  | failed (stderr : String)
  | exc (msg : String)
  deriving DecidableEq

/-- AutostartManager.stop_all_batch (AutoLoad.py lines 894-916): iterates over a
snapshot of the tracked dict, runs taskkill by image name for each entry (its
outcome given by the oracle term), and deletes the entry from the dict on every
branch - zero exit, nonzero exit and raised exception alike; finally every
table row is shown Stopped. -/
def stop_all_batch (term : String → TermOutcome) (st : BatchState) :
    BatchState × List (String × TermOutcome) :=
  let snapshot := st.processes
  ({ st with
      processes := snapshot.foldl (fun m kv => dictErase m kv.1) st.processes,
      batchTable := st.batchTable.map (fun r => (r.1, "Stopped")) },
    snapshot.map (fun kv => (kv.1, term kv.2)))

/-- The backend tag carried by a listed autostart row
(load_autostart_processes, AutoLoad.py lines 748 and 767). -/
inductive Source where
  | registry
  | scheduler
  deriving DecidableEq

/-- What remove_process reports to the user once the removal is confirmed. -/
inductive RemoveOutcome where
  | success
  | failure (msg : String)
  deriving DecidableEq

/-- AutostartManager.remove_process (AutoLoad.py lines 783-808), after the user
confirms. Registry branch: winreg.DeleteValue raises FileNotFoundError when the
value is absent, so removing an absent name lands in the exception handler and
reports a failure dialog. Scheduler branch: the schtasks delete command is run
without capturing or checking its result (deleteResult is discarded), so a
success dialog is shown whether or not the task existed or the command
succeeded. -/
def remove_process (source : Source) (name : String) (deleteResult : CmdResult)
    (registry tasks : List (String × String)) :
    List (String × String) × List (String × String) × RemoveOutcome :=
  match source with
  | Source.registry =>
    if registry.any (fun kv => kv.1 == name) then
      (dictErase registry name, tasks, RemoveOutcome.success)
    else
      (registry, tasks, RemoveOutcome.failure "Failed to remove from autostart: FileNotFoundError")
  | Source.scheduler =>
    let _ := deleteResult
    (registry, dictErase tasks name, RemoveOutcome.success)

/-- The outcome add_to_autostart reports to the user. -/
inductive AddOutcome where
  | success
  | error (msg : String)
  deriving DecidableEq

/-- The two OS autostart stores, each a map from entry name to command string:
the registry Run key and the scheduled-task store. -/
structure AutostartState where
  registry : List (String × String)
  tasks : List (String × String)
  deriving DecidableEq

/-- The quoted command string written for a file path (add_to_registry line 671
and the task definition line 714 of AutoLoad.py). -/
def quoteCmd (file_path : String) : String := "\"" ++ file_path ++ "\""

/-- AutostartManager.add_to_autostart (AutoLoad.py lines 579-611): reject an
empty path, then an app name failing validate_app_name, then a nonexistent
file, all before any backend access; otherwise write the chosen backend - a
scheduled task whose name carries a random suffix (oracle taskSuffix), failing
when the schtasks create command (oracle createResult) exits nonzero, or a
registry Run value named by the app name. -/
def add_to_autostart (fs : String → Bool) (createResult : CmdResult) (taskSuffix : String)
    (st : AutostartState) (file_path app_name : String) (runAsAdmin : Bool) :
    AutostartState × AddOutcome :=
  if file_path == "" then (st, AddOutcome.error "Specify file path!")
  else if !(validate_app_name app_name).1 then
    (st, AddOutcome.error (validate_app_name app_name).2)
  else if !(fs file_path) then
    (st, AddOutcome.error "The specified file does not exist!")
  else if runAsAdmin then
    if createResult.returncode ≠ 0 then
      (st, AddOutcome.error ("Failed to add to autostart: Task creation error: "
        ++ createResult.stderr))
    else
      let tasks1 := dictInsert st.tasks ("Autostart_" ++ app_name ++ "_" ++ taskSuffix)
        (quoteCmd file_path)
      ({ st with tasks := tasks1 }, AddOutcome.success)
  else
    ({ st with registry := dictInsert st.registry app_name (quoteCmd file_path) },
      AddOutcome.success)

/-- The error text surfaced by add_to_task_scheduler when the schtasks create
command exits nonzero (AutoLoad.py lines 724-728): the raised exception carries
the captured stderr verbatim. -/
def schtasksCreateReport (r : CmdResult) : Option String :=
  if r.returncode ≠ 0 then some ("Task creation error: " ++ r.stderr) else none

/-- The error text surfaced for the schtasks delete call of remove_process
(AutoLoad.py line 802): the command is run with no output capture and its
result is discarded, so no failure is ever reported. -/
def schedulerDeleteReport (_r : CmdResult) : Option String := none

/-- The warning text surfaced by stop_all_batch when taskkill exits nonzero
(AutoLoad.py lines 904-906): the captured stderr appears verbatim in the
message. -/
def taskkillReport (process_name : String) (r : CmdResult) : Option String :=
  if r.returncode ≠ 0 then some ("Could not stop " ++ process_name ++ ": " ++ r.stderr)
  else none

/-- DragDropTableWidget.dropEvent, internal-move branch (AutoLoad.py lines
80-103): from_row is the selected row, to_row the drop row, with -1 (a drop
below the last row) mapped to the row count. A target equal to the source or to
the source plus one returns before touching the table and before
save_batch_list; otherwise the row is removed, the target adjusted when the
source was above it, the row reinserted, and the list saved. The Bool result
records whether a store write (a save_batch_list call) occurred. In the UI
from_row is always a valid row index, so the default row of getD is never
read. -/
def dropEventReorder (table : List (String × String)) (from_row : Nat) (to_row : Int) :
    List (String × String) × Bool :=
  let t : Int := if to_row = -1 then (table.length : Int) else to_row
  if (from_row : Int) = t ∨ (from_row : Int) + 1 = t then (table, false)
  else
    let item := table.getD from_row ("", "")
    let l1 := table.eraseIdx from_row
    let t2 : Nat := if (from_row : Int) < t then (t - 1).toNat else t.toNat
    (l1.insertIdx t2 item, true)

/-- The parsed shape of a settings bundle as import_settings reads it, fields
accessed with settings.get: a missing batch_list defaults to the empty list, a
missing theme to light. -/
structure Bundle where
  batch_list : Option (List String)
  theme : Option String
  deriving DecidableEq

/-- AutostartManager.import_settings (AutoLoad.py lines 936-964) once a file is
chosen: a JSON parse failure is raised and caught before any mutation, leaving
every piece of state as it was with no success dialog; on a parsed bundle the
table is rebuilt from exactly the incoming entries passing is_valid_file (each
Stopped), the rebuilt list is saved, and the theme is adopted (and persisted)
only when it is the literal light or dark, the current theme being kept
otherwise. The Bool result records whether the success dialog was shown. -/
def import_settings (fs : String → Bool) (st : BatchState)
    (parsed : Except String Bundle) : BatchState × Bool :=
  match parsed with
  | Except.error _ => (st, false)
  | Except.ok b =>
    let table := ((b.batch_list.getD []).filter (fun p => is_valid_file fs p)).map
      (fun p => (p, "Stopped"))
    let st1 := save_batch_list { st with batchTable := table }
    let t := b.theme.getD "light"
    (if t == "light" || t == "dark" then { st1 with theme := t } else st1, true)

-- Concrete inputs used by counterexamples and witnesses.

/-- Concrete batch state holding the single saved path of the round-trip
counterexample: a nonempty duplicate-free list whose one path has an
unapproved extension. -/
def c1State : BatchState :=
  { batchTable := [("C:\\notes.txt", "Stopped")], batchFile := none,
    processes := [], theme := "light" }

/-- Concrete batch state whose one path passes the validity check, for the
round-trip witness. -/
def c1GoodState : BatchState :=
  { batchTable := [("C:\\tools\\run.exe", "Stopped")], batchFile := none,
    processes := [], theme := "light" }

/-- Concrete batch state for a two-entry batch whose second path fails to
launch. -/
def c2State : BatchState :=
  { batchTable := [("C:\\tools\\run.exe", "Stopped"), ("C:\\gone.exe", "Stopped")],
    batchFile := none, processes := [], theme := "light" }

/-- Concrete parsed settings bundle carrying an unrecognized theme value. -/
def c8Bundle : Bundle :=
  { batch_list := some ["C:\\good.exe", "C:\\missing.txt"], theme := some "blue" }

/-- Concrete batch state whose current theme is dark, used when importing the
bundle with the unrecognized theme. -/
def c8State : BatchState :=
  { batchTable := [], batchFile := none, processes := [], theme := "dark" }

-- Helper lemmas.

/-- Folding the dict deletion of every key of a snapshot over the snapshot
itself empties the association list: each step erases the current head. -/
theorem foldl_dictErase_self :
    ∀ l : List (String × String), l.foldl (fun m kv => dictErase m kv.1) l = [] := by
  intro l
  induction l with
  | nil => rfl
  | cons x xs ih =>
    have h : dictErase (x :: xs) x.1 = xs := by
      simp [dictErase]
    simpa [List.foldl_cons, h] using ih

-- Theorems for the claims.

/-- Claim C10: a JSON parse failure in import_settings is raised and caught
before any mutation, so the in-memory batch table, the persisted batch-list
file, the tracked processes and the current theme are all returned unchanged,
with no success reported. -/
theorem c10_import_parse_error_atomic (fs : String → Bool) (st : BatchState) (e : String) :
    import_settings fs st (Except.error e) = (st, false) := rfl

/-- Claim C4: stop_all_batch deletes every tracked entry on all branches of its
loop body, so whatever the prior tracking dict (in particular the one left by
any start_all_batch) and whatever each terminate command reports, the dict is
empty afterwards. -/
theorem c4_stop_all_empties (term : String → TermOutcome) (st : BatchState) :
    (stop_all_batch term st).1.processes = [] := by
  simp [stop_all_batch, foldl_dictErase_self]

/-- Claim C2: over a two-entry batch whose first path launches and whose second
fails to launch, start_all_batch attempts both entries, reports running for the
first and a caught launch failure for the second, shows Running then Stopped in
the table, and afterwards the tracking dict holds exactly the one successful
entry. -/
theorem c2_start_all_partial_failure (launchOk : String → Bool)
    (p1 p2 s1 s2 : String) (st : BatchState)
    (htab : st.batchTable = [(p1, s1), (p2, s2)])
    (h1 : launchOk p1 = true) (h2 : launchOk p2 = false) :
    (start_all_batch launchOk st).2
        = [(p1, LaunchReport.running), (p2, LaunchReport.launchFailed)]
      ∧ (start_all_batch launchOk st).1.processes = [(p1, basename p1)]
      ∧ (start_all_batch launchOk st).1.batchTable = [(p1, "Running"), (p2, "Stopped")] := by
  refine ⟨?_, ?_, ?_⟩ <;> simp [start_all_batch, htab, h1, h2, dictInsert]

/-- Closed instance of the partial-failure start: with the oracle launching only
the first path, exactly that path is tracked afterwards. -/
theorem c2_start_all_partial_failure_witness :
    (start_all_batch (fun p => p == "C:\\tools\\run.exe") c2State).1.processes
      = [("C:\\tools\\run.exe", basename "C:\\tools\\run.exe")] :=
  (c2_start_all_partial_failure (fun p => p == "C:\\tools\\run.exe")
    "C:\\tools\\run.exe" "C:\\gone.exe" "Stopped" "Stopped" c2State rfl
    (by decide) (by decide)).2.1

/-- Claim C3 as stated fails for the Registry backend: removing the absent name
Ghost from an empty registry makes winreg.DeleteValue raise, landing in the
exception handler which reports a failure dialog, not success. -/
theorem c3_remove_counterexample :
    (remove_process Source.registry "Ghost" ⟨0, "", ""⟩ [] []).2.2
      ≠ RemoveOutcome.success := by
  decide

/-- Claim C3 amended: the Scheduler branch never inspects the delete command, so
removing any name - present or absent, twice in a row - reports success and
raises nothing; the Registry branch reports success only when the name exists,
and removing an absent name (hence also the second of two consecutive removals
of the same name) is caught and reported as a failure instead of success. -/
theorem c3_remove_idempotency (name : String) (deleteResult : CmdResult)
    (registry tasks : List (String × String))
    (habs : registry.any (fun kv => kv.1 == name) = false) :
    (remove_process Source.scheduler name deleteResult registry tasks).2.2
        = RemoveOutcome.success
      ∧ (remove_process Source.scheduler name deleteResult
            (remove_process Source.scheduler name deleteResult registry tasks).1
            (remove_process Source.scheduler name deleteResult registry tasks).2.1).2.2
          = RemoveOutcome.success
      ∧ (remove_process Source.registry name deleteResult registry tasks).2.2
          = RemoveOutcome.failure "Failed to remove from autostart: FileNotFoundError" := by
  refine ⟨rfl, rfl, ?_⟩
  simp [remove_process, habs]

/-- Closed instance of the amended removal behavior: removing a name absent from
a nonempty registry reports the caught failure. -/
theorem c3_remove_idempotency_witness :
    (remove_process Source.registry "Ghost2" ⟨0, "", ""⟩ [("Keep", "\"C:\\k.exe\"")] []).2.2
      = RemoveOutcome.failure "Failed to remove from autostart: FileNotFoundError" :=
  (c3_remove_idempotency "Ghost2" ⟨0, "", ""⟩ [("Keep", "\"C:\\k.exe\"")] []
    (by decide)).2.2

/-- Claim C1 as stated fails: the nonempty duplicate-free sequence holding the
single path of c1State is saved, yet load drops the path again because its
extension is not approved, so the reloaded sequence is empty instead of equal
to the saved one - even on a filesystem where the path exists. -/
theorem c1_roundtrip_counterexample :
    c1State.batchTable.map Prod.fst ≠ []
      ∧ (c1State.batchTable.map Prod.fst).Nodup
      ∧ (load_batch_list (fun _ => true) (save_batch_list c1State)).batchTable.map Prod.fst
          ≠ c1State.batchTable.map Prod.fst := by
  refine ⟨by decide, by decide, by decide⟩

/-- Claim C1 amended: saving the batch list and reloading it returns the same
nonempty duplicate-free ordered sequence of paths provided every path passes
the validity check applied on load (it exists, carries an approved executable
extension and contains no shell metacharacter); paths failing the check are
dropped by the reload. -/
theorem c1_save_load_roundtrip (fs : String → Bool) (st : BatchState)
    (_hne : st.batchTable ≠ []) (_hnd : (st.batchTable.map Prod.fst).Nodup)
    (hval : ∀ p ∈ st.batchTable.map Prod.fst, is_valid_file fs p = true) :
    (load_batch_list fs (save_batch_list st)).batchTable.map Prod.fst
      = st.batchTable.map Prod.fst := by
  have hf : (st.batchTable.map Prod.fst).filter (fun p => is_valid_file fs p)
      = st.batchTable.map Prod.fst :=
    List.filter_eq_self.mpr hval
  simp [load_batch_list, save_batch_list, hf, List.map_map, Function.comp]

/-- Closed instance of the amended round-trip on a one-path valid batch. -/
theorem c1_save_load_roundtrip_witness :
    (load_batch_list (fun _ => true) (save_batch_list c1GoodState)).batchTable.map Prod.fst
      = c1GoodState.batchTable.map Prod.fst :=
  c1_save_load_roundtrip (fun _ => true) c1GoodState
    (by decide) (by decide) (by decide)

/-- Claim C5 fails as a code bug: the name pattern is applied with Python
re.match, whose dollar anchor also matches just before one trailing newline, so
an app name of abc followed by a final newline - which contains a character
outside the allowed class - passes validate_app_name, and add_to_autostart
then reaches the backend and writes a registry value under that name; this
contradicts the code's own rejection text, which says names may only contain
letters, numbers, underscores or hyphens. -/
theorem c5_trailing_newline_escapes_validation :
    "abc\n".data.all isNameChar = false
      ∧ (validate_app_name "abc\n").1 = true
      ∧ (add_to_autostart (fun _ => true) ⟨0, "", ""⟩ "0a1b2c3d"
            { registry := [], tasks := [] } "C:\\app.exe" "abc\n" false).1.registry
          = [("abc\n", "\"C:\\app.exe\"")] := by
  refine ⟨by decide, by decide, by decide⟩

/-- Claim C6: a drop whose target index equals the source index or the source
index plus one returns before any table mutation and before save_batch_list, so
the in-memory order is unchanged and no store write occurs (hence the persisted
list is untouched as well). -/
theorem c6_reorder_noop (table : List (String × String)) (from_row : Nat) (to_row : Int)
    (h : to_row = from_row ∨ to_row = from_row + 1) :
    dropEventReorder table from_row to_row = (table, false) := by
  have h1 : ¬((from_row : Int) = -1) := by omega
  have h2 : ¬((from_row : Int) + 1 = -1) := by omega
  rcases h with h | h <;> simp [dropEventReorder, h, h1, h2]

/-- Closed instance of the no-op reorder: dropping row one onto the slot right
below it leaves the two-row table unchanged with no save. -/
theorem c6_reorder_noop_witness :
    dropEventReorder [("C:\\a.exe", "Stopped"), ("C:\\b.exe", "Stopped")] 1 2
      = ([("C:\\a.exe", "Stopped"), ("C:\\b.exe", "Stopped")], false) :=
  c6_reorder_noop [("C:\\a.exe", "Stopped"), ("C:\\b.exe", "Stopped")] 1 2
    (Or.inr (by decide))

/-- Claim C7 as stated fails: the schtasks delete issued by remove_process runs
without output capture and its result is never inspected, so a nonzero exit
carrying stderr text surfaces nothing - the removal still reports success, a
silent backend failure. -/
theorem c7_stderr_counterexample :
    (remove_process Source.scheduler "Autostart_T_0a1b2c3d"
          ⟨1, "", "ERROR: Access is denied."⟩ []
          [("Autostart_T_0a1b2c3d", "\"C:\\t.exe\"")]).2.2 = RemoveOutcome.success
      ∧ schedulerDeleteReport ⟨1, "", "ERROR: Access is denied."⟩ = none := by
  exact ⟨rfl, rfl⟩

/-- Claim C7 amended: the scheduled-task create of add_to_task_scheduler and the
taskkill of stop_all_batch capture stderr and surface it verbatim inside the
reported error whenever the command exits nonzero, but the scheduled-task
delete of remove_process discards its command result, so its failures surface
nothing. -/
theorem c7_stderr_surfacing (process_name : String) (r : CmdResult)
    (h : r.returncode ≠ 0) :
    schtasksCreateReport r = some ("Task creation error: " ++ r.stderr)
      ∧ taskkillReport process_name r
          = some ("Could not stop " ++ process_name ++ ": " ++ r.stderr)
      ∧ schedulerDeleteReport r = none := by
  refine ⟨?_, ?_, rfl⟩ <;> simp [schtasksCreateReport, taskkillReport, h]

/-- Closed instance of the stderr surfacing on a failing create command. -/
theorem c7_stderr_surfacing_witness :
    schtasksCreateReport ⟨1, "", "denied"⟩
      = some ("Task creation error: " ++ "denied") :=
  (c7_stderr_surfacing "run.exe" ⟨1, "", "denied"⟩ (by decide)).1

/-- Claim C8: every parsed bundle imports successfully, whatever its theme
field, and the rebuilt batch table holds exactly the incoming entries passing
is_valid_file - the same check add_batch_file applies - so each invalid entry
is dropped without failing the whole import; additionally, whenever the bundle
carries a theme value other than light and dark, the current theme is left
unchanged rather than erroring. -/
theorem c8_import_filters_and_theme (fs : String → Bool) (st : BatchState) (b : Bundle) :
    (import_settings fs st (Except.ok b)).2 = true
      ∧ (import_settings fs st (Except.ok b)).1.batchTable.map Prod.fst
          = (b.batch_list.getD []).filter (fun p => is_valid_file fs p)
      ∧ (∀ t : String, b.theme = some t → t ≠ "light" → t ≠ "dark" →
          (import_settings fs st (Except.ok b)).1.theme = st.theme) := by
  have hcomp : (Prod.fst ∘ fun p : String => (p, "Stopped")) = fun p : String => p := rfl
  refine ⟨rfl, ?_, ?_⟩
  · have htab : (import_settings fs st (Except.ok b)).1.batchTable
        = ((b.batch_list.getD []).filter (fun q => is_valid_file fs q)).map
            (fun q => (q, "Stopped")) := by
      simp only [import_settings, save_batch_list]
      split <;> rfl
    rw [htab]
    simp [List.map_map, hcomp]
  · intro t hth hl hd
    have hb : (t == "light" || t == "dark") = false := by
      simp [hl, hd]
    simp [import_settings, save_batch_list, hth, hb]

/-- Closed instance of the import behavior: the unrecognized theme value blue
leaves the dark current theme in place. -/
theorem c8_import_filters_and_theme_witness :
    (import_settings (fun _ => true) c8State (Except.ok c8Bundle)).1.theme = c8State.theme :=
  (c8_import_filters_and_theme (fun _ => true) c8State c8Bundle).2.2 "blue" rfl
    (by decide) (by decide)

/-- Claim C9: a path containing one of the four shell metacharacters fails
is_valid_file even on a filesystem where it exists and whatever its extension,
and in consequence add_batch_file leaves the table unchanged, a persisted list
containing the path reloads without it, and an imported bundle listing it
yields a batch table without it - a restriction beyond the documented
extension-and-existence rule. -/
theorem c9_metachar_rejection (fs : String → Bool) (p : String) (c : Char)
    (hc : c = '<' ∨ c = '>' ∨ c = '|' ∨ c = '&') (hcp : c ∈ p.data) :
    is_valid_file fs p = false
      ∧ (∀ st : BatchState, (add_batch_file fs st p).batchTable = st.batchTable)
      ∧ (∀ st : BatchState, ∀ items : List String,
          st.batchFile = some (Except.ok items) →
            p ∉ (load_batch_list fs st).batchTable.map Prod.fst)
      ∧ (∀ st : BatchState, ∀ b : Bundle,
          p ∉ (import_settings fs st (Except.ok b)).1.batchTable.map Prod.fst) := by
  have hmeta : p.data.any isShellMeta = true := by
    rw [List.any_eq_true]
    refine ⟨c, hcp, ?_⟩
    rcases hc with h | h | h | h <;> simp [isShellMeta, h]
  have hval : is_valid_file fs p = false := by
    simp [is_valid_file, hmeta]
  refine ⟨hval, ?_, ?_, ?_⟩
  · intro st
    simp [add_batch_file, hval]
  · intro st items hst
    simp [load_batch_list, hst, List.map_map, Function.comp, List.mem_filter, hval]
  · intro st b
    have htab : (import_settings fs st (Except.ok b)).1.batchTable
        = ((b.batch_list.getD []).filter (fun q => is_valid_file fs q)).map
            (fun q => (q, "Stopped")) := by
      simp only [import_settings, save_batch_list]
      split <;> rfl
    rw [htab]
    simp [List.mem_filter, hval]

/-- Closed instance of the metacharacter rejection: a path carrying an
ampersand fails the validity check although it exists and ends in the approved
extension. -/
theorem c9_metachar_rejection_witness :
    is_valid_file (fun _ => true) "C:\\tools\\a&b.exe" = false :=
  (c9_metachar_rejection (fun _ => true) "C:\\tools\\a&b.exe" '&'
    (Or.inr (Or.inr (Or.inr rfl))) (by decide)).1

end AutoLoad
